import Mathlib

/-!
Verification development for the `3DWebView` repository
(`src/3D-webview-app/src/app/services/tree-scene.service.ts`,
`src/3D-webview-app/src/app/services/topology-state.service.ts`,
`src/3D-webview-app/src/app/pages/topology-viewer/topology-viewer.component.ts`).

The TypeScript services are embedded shallowly: the mutable fields of
`ThreeSceneService` and `TopologyStateService` become explicit state
records, every method becomes a pure state-transformer, and the two
external effects (the GLTF asset loader and the wall clock `Date.now()`)
become explicit parameters of the transformers.  JavaScript object maps
(`{ [key: string]: V }`) are embedded as association lists whose keys are
unique, with JavaScript's semantics for lookup, key update and `delete`.
Scalar scene coordinates are idealized as rationals; the one square root
the code computes (`direction.length()`, used as the cylinder height of a
cable mesh) is carried as its exact square (`heightSq`), so that
"height = distance" becomes `heightSq` = squared distance of the
endpoints, an equivalent statement for the two nonnegative quantities.
-/

namespace WebView3D

/-- Rational 3-vector standing in for `THREE.Vector3`. -/
structure Vec3 where
  x : ℚ
  y : ℚ
  z : ℚ
deriving DecidableEq, Repr

/-- Componentwise subtraction, `THREE.Vector3.subVectors`. -/
def Vec3.sub (a b : Vec3) : Vec3 := ⟨a.x - b.x, a.y - b.y, a.z - b.z⟩

/-- Componentwise addition, `THREE.Vector3.add`. -/
def Vec3.add (a b : Vec3) : Vec3 := ⟨a.x + b.x, a.y + b.y, a.z + b.z⟩

/-- Scalar multiplication, `THREE.Vector3.multiplyScalar`. -/
def Vec3.smul (a : Vec3) (c : ℚ) : Vec3 := ⟨a.x * c, a.y * c, a.z * c⟩

/-- Squared Euclidean norm; `direction.length()` is its square root. -/
def Vec3.normSq (a : Vec3) : ℚ := a.x * a.x + a.y * a.y + a.z * a.z

/-- Squared distance between two points; the distance is its square root. -/
def distSq (a b : Vec3) : ℚ := (Vec3.sub b a).normSq

/-- Midpoint of two points. -/
def midpoint3 (a b : Vec3) : Vec3 :=
  ⟨(a.x + b.x) / 2, (a.y + b.y) / 2, (a.z + b.z) / 2⟩

/-- A `THREE.Color` value: either a numeric hex color (`color.set(0x00ff00)`)
or a CSS-style color string (`color.set(state)` in the default branch of
`setPortState`). -/
inductive ColorVal where
  | hex (n : Nat)
  | css (s : String)
deriving DecidableEq, Repr

/-- The two material attributes the services touch on a
`THREE.MeshStandardMaterial`. -/
structure Material where
  color : ColorVal
  emissive : ColorVal
deriving DecidableEq, Repr

/-- `PortInfo` from `tree-scene.service.ts`.  The `mesh` field is embedded
by its material (the only part of the mesh the service reads or writes);
the optional TypeScript fields `blinking`/`blinkOn` are embedded as `Bool`
with `false` for `undefined` (both are only used in boolean positions,
where `undefined` is falsy), `lastBlinkTime`/`currentState` as options. -/
structure PortInfo where
  material : Material
  originalColor : ColorVal
  originalEmissive : ColorVal
  blinking : Bool := false
  blinkOn : Bool := false
  lastBlinkTime : Option Nat := none
  currentState : Option String := none
deriving DecidableEq, Repr

/-- `LoadedModel` from `tree-scene.service.ts`.  Each port attach point is
embedded by the world position `getWorldPosition` reports for it (the
engine-computed quantity the service consumes). -/
structure LoadedModel where
  id : String
  portIndicators : List (String × PortInfo)
  portAttachPoints : List (String × Vec3)
deriving DecidableEq, Repr

/-- A cable endpoint reference (`{ modelId, portAttachName }`). -/
structure Endpoint where
  modelId : String
  portAttachName : String
deriving DecidableEq, Repr

/-- The cylinder mesh `connectCable` builds.  `heightSq` is the square of
the `CylinderGeometry` height (the source computes
`length = direction.length()` and passes it as the height; its square is
`direction.normSq`, kept exact here). -/
structure CableMesh where
  name : String
  position : Vec3
  heightSq : ℚ
  material : Material
deriving DecidableEq, Repr

/-- `CableInfo` from `tree-scene.service.ts`. -/
structure CableInfo where
  id : String
  object : CableMesh
  source : Endpoint
  target : Endpoint
deriving DecidableEq, Repr

/-- The mutable state of `ThreeSceneService` that the verified operations
read or write: the scene's set of added objects (by name), the
`loadedModels` map and the `cables` map. -/
structure SceneState where
  scene : List String
  loadedModels : List (String × LoadedModel)
  cables : List (String × CableInfo)
deriving DecidableEq, Repr

/-! ### Association lists with JavaScript object-map semantics -/

/-- `m[k]`: first binding of `k`, JavaScript property lookup. -/
def lookupA {α : Type} : List (String × α) → String → Option α
  | [], _ => none
  | p :: m, k => if p.1 == k then some p.2 else lookupA m k

/-- `k in m`: whether the key is present. -/
def containsKey {α : Type} (m : List (String × α)) (k : String) : Bool :=
  (lookupA m k).isSome

/-- Update the value at a present key in place (JavaScript mutation of an
existing property keeps the key's position). -/
def updateA {α : Type} (m : List (String × α)) (k : String) (f : α → α) :
    List (String × α) :=
  m.map (fun p => if p.1 == k then (p.1, f p.2) else p)

/-- `delete m[k]`. -/
def eraseA {α : Type} (m : List (String × α)) (k : String) :
    List (String × α) :=
  m.filter (fun p => !(p.1 == k))

/-- `m[k] = v`: overwrite in place when the key exists, append otherwise. -/
def insertA {α : Type} (m : List (String × α)) (k : String) (v : α) :
    List (String × α) :=
  if containsKey m k then updateA m k (fun _ => v) else m ++ [(k, v)]

theorem lookupA_updateA_self {α : Type} (m : List (String × α)) (k : String)
    (f : α → α) : lookupA (updateA m k f) k = (lookupA m k).map f := by
  induction m with
  | nil => rfl
  | cons p m ih =>
    by_cases h : p.1 = k
    · simp [lookupA, updateA, h]
    · simpa [lookupA, updateA, h] using ih

theorem lookupA_updateA_ne {α : Type} (m : List (String × α)) (k k' : String)
    (f : α → α) (h : k' ≠ k) : lookupA (updateA m k f) k' = lookupA m k' := by
  induction m with
  | nil => rfl
  | cons p m ih =>
    by_cases hp : p.1 = k
    · simpa [lookupA, updateA, hp, Ne.symm h] using ih
    · by_cases hq : p.1 = k'
      · simp [lookupA, updateA, hp, hq, h]
      · simpa [lookupA, updateA, hp, hq] using ih

theorem lookupA_append_right {α : Type} (m : List (String × α)) (k : String)
    (v : α) (h : lookupA m k = none) :
    lookupA (m ++ [(k, v)]) k = some v := by
  induction m with
  | nil => simp [lookupA]
  | cons p m ih =>
    by_cases hp : p.1 = k
    · simp [lookupA, hp] at h
    · simpa [lookupA, hp] using ih (by simpa [lookupA, hp] using h)

theorem lookupA_append_ne {α : Type} (m : List (String × α)) (k k' : String)
    (v : α) (h : k' ≠ k) : lookupA (m ++ [(k, v)]) k' = lookupA m k' := by
  induction m with
  | nil => simp [lookupA, Ne.symm h]
  | cons p m ih =>
    by_cases hp : p.1 = k'
    · simp [lookupA, hp]
    · simpa [lookupA, hp] using ih

theorem lookupA_eraseA_ne {α : Type} (m : List (String × α)) (k k' : String)
    (h : k' ≠ k) : lookupA (eraseA m k) k' = lookupA m k' := by
  induction m with
  | nil => rfl
  | cons p m ih =>
    by_cases hp : p.1 = k
    · simpa [lookupA, eraseA, hp, Ne.symm h] using ih
    · by_cases hq : p.1 = k'
      · simp [lookupA, eraseA, hp, hq, h]
      · simpa [lookupA, eraseA, hp, hq] using ih

theorem lookupA_isSome_of_mem {α : Type} {m : List (String × α)}
    {p : String × α} (h : p ∈ m) : (lookupA m p.1).isSome := by
  induction m with
  | nil => cases h
  | cons q m ih =>
    rcases List.mem_cons.mp h with h | h
    · subst h; simp [lookupA]
    · by_cases hq : q.1 = p.1
      · simp [lookupA, hq]
      · simpa [lookupA, hq] using ih h

theorem lookupA_of_mem_nodup {α : Type} {m : List (String × α)}
    {p : String × α} (hnd : (m.map Prod.fst).Nodup) (h : p ∈ m) :
    lookupA m p.1 = some p.2 := by
  induction m with
  | nil => cases h
  | cons q m ih =>
    simp only [List.map, List.nodup_cons] at hnd
    rcases List.mem_cons.mp h with h | h
    · subst h; simp [lookupA]
    · have hq : q.1 ≠ p.1 := by
        intro he
        exact hnd.1 (he ▸ List.mem_map.mpr ⟨p, h, rfl⟩)
      simpa [lookupA, hq] using ih hnd.2 h

/-! ### JavaScript string operations

The service uses `String.prototype.endsWith`, `startsWith` and `replace`
(the string-pattern form of `replace` substitutes only the first
occurrence).  They are embedded over the character list of the string. -/

/-- JavaScript `s.endsWith(suffix)`. -/
def strEndsWith (s suffix : String) : Bool :=
  suffix.data.isSuffixOf s.data

/-- JavaScript `s.startsWith(pre)`. -/
def strStartsWith (s pre : String) : Bool :=
  pre.data.isPrefixOf s.data

/-- Replace the first occurrence of `pat` in `s` by `rep`; `s` unchanged
when `pat` does not occur. -/
def replaceFirstList (s pat rep : List Char) : List Char :=
  match s with
  | [] => []
  | c :: cs =>
      if pat.isPrefixOf (c :: cs) then rep ++ (c :: cs).drop pat.length
      else c :: replaceFirstList cs pat rep

/-- JavaScript `s.replace(pat, rep)` with a string pattern. -/
def strReplaceFirst (s pat rep : String) : String :=
  String.mk (replaceFirstList s.data pat.data rep.data)

/-! ### `ThreeSceneService` operations -/

/-- `BLINK_INTERVAL` (milliseconds), `tree-scene.service.ts` line 32. -/
def BLINK_INTERVAL : Nat := 500

/-- The body of `updateCableVisualsForPort`'s `forEach` callback for one
`cables` entry: recolor the cable if one of its endpoints sits on the
given model and its attach name starts with the indicator's base name. -/
def recolorCable (loadedModels : List (String × LoadedModel))
    (modelInstanceId portIndicatorName : String) (p : String × CableInfo) :
    String × CableInfo :=
  let base := strReplaceFirst portIndicatorName "_Indicator" ""
  let cable := p.2
  if (cable.source.modelId == modelInstanceId &&
        strStartsWith cable.source.portAttachName base) ||
      (cable.target.modelId == modelInstanceId &&
        strStartsWith cable.target.portAttachName base) then
    match lookupA loadedModels modelInstanceId with
    | none => p
    | some modelData =>
      match lookupA modelData.portIndicators portIndicatorName with
      | none => p
      | some portInfo =>
        let c : ColorVal :=
          if portInfo.currentState == some "active" then .hex 0x00aa00
          else if portInfo.currentState == some "inactive" then .hex 0x505050
          else if portInfo.currentState == some "error" then .hex 0xaa0000
          else .hex 0x505050
        (p.1, { cable with object :=
          { cable.object with material := { cable.object.material with color := c } } })
  else p

/-- `ThreeSceneService.updateCableVisualsForPort` (lines 333–351). -/
def updateCableVisualsForPort (s : SceneState)
    (modelInstanceId portIndicatorName : String) : SceneState :=
  { s with cables :=
      s.cables.map (recolorCable s.loadedModels modelInstanceId portIndicatorName) }

/-- The material/flag update `setPortState` performs on one `PortInfo`
(lines 176–196): record `blinking`/`currentState`, then the `switch` on
`state`. -/
def applyPortState (state : String) (blinking : Bool) (portInfo : PortInfo) :
    PortInfo :=
  let p1 := { portInfo with blinking := blinking, currentState := some state }
  if state == "active" then
    let e : ColorVal := .hex (if blinking then 0x003300 else 0x008800)
    { p1 with material := { color := .hex 0x00ff00, emissive := e } }
  else if state == "inactive" then
    { p1 with material := { color := .hex 0x808080, emissive := .hex 0x000000 }
            , blinking := false }
  else if state == "error" then
    let e : ColorVal := .hex (if blinking then 0x330000 else 0x880000)
    { p1 with material := { color := .hex 0xff0000, emissive := e } }
  else
    { p1 with material := { color := .css state, emissive := .hex 0x000000 } }

/-- `ThreeSceneService.setPortState` (lines 166–199). -/
def setPortState (s : SceneState) (modelInstanceId portName state : String)
    (blinking : Bool) : SceneState :=
  match lookupA s.loadedModels modelInstanceId with
  | none => s
  | some modelData =>
    match lookupA modelData.portIndicators portName with
    | none => s
    | some _ =>
      let lm := updateA s.loadedModels modelInstanceId (fun md =>
        { md with portIndicators :=
            updateA md.portIndicators portName (applyPortState state blinking) })
      updateCableVisualsForPort { s with loadedModels := lm }
        modelInstanceId portName

/-- The guard `!portInfo.lastBlinkTime || (currentTime -
portInfo.lastBlinkTime > BLINK_INTERVAL)` of `updateBlinkingPorts`.  The
`!portInfo.lastBlinkTime` test is JavaScript truthiness: it holds when
`lastBlinkTime` is `undefined` (here `none`) and also when it is the
number `0`. -/
def blinkDue (currentTime : Nat) (portInfo : PortInfo) : Bool :=
  match portInfo.lastBlinkTime with
  | none => true
  | some t => t == 0 || decide (currentTime - t > BLINK_INTERVAL)

/-- One `PortInfo` step of `updateBlinkingPorts` (lines 206–223). -/
def blinkPort (currentTime : Nat) (portInfo : PortInfo) : PortInfo :=
  if portInfo.blinking then
    if blinkDue currentTime portInfo then
      let p := { portInfo with lastBlinkTime := some currentTime, blinkOn := !portInfo.blinkOn }
      if p.blinkOn then
        if p.currentState == some "active" then
          { p with material := { p.material with emissive := .hex 0x00ff00 } }
        else if p.currentState == some "error" then
          { p with material := { p.material with emissive := .hex 0xff0000 } }
        else p
      else
        if p.currentState == some "active" then
          { p with material := { p.material with emissive := .hex 0x003300 } }
        else if p.currentState == some "error" then
          { p with material := { p.material with emissive := .hex 0x330000 } }
        else p
    else portInfo
  else portInfo

/-- `ThreeSceneService.updateBlinkingPorts` (lines 201–226); `currentTime`
is the `Date.now()` value observed in the call. -/
def updateBlinkingPorts (s : SceneState) (currentTime : Nat) : SceneState :=
  { s with loadedModels := s.loadedModels.map (fun q =>
      (q.1, { q.2 with portIndicators :=
        q.2.portIndicators.map (fun r => (r.1, blinkPort currentTime r.2)) })) }

/-- World position of a cable endpoint's attach point, when both the model
and the attach point exist
(`this.loadedModels[...]?.portAttachPoints[...]`). -/
def getAttachPos (s : SceneState) (e : Endpoint) : Option Vec3 :=
  match lookupA s.loadedModels e.modelId with
  | none => none
  | some md => lookupA md.portAttachPoints e.portAttachName

/-- The body of the cable-repositioning loop of `updateScene` (lines
419–462) for one `cables` entry.  Every cable created by `connectCable`
is a cylinder mesh, so only the `CylinderGeometry` branch applies: the
cable's position is recomputed as `sourcePos + 0.5 * direction` from the
current attach world positions; the geometry itself is left as created
(the source's scaling code is commented out). -/
def repositionCable (s : SceneState) (p : String × CableInfo) :
    String × CableInfo :=
  match getAttachPos s p.2.source, getAttachPos s p.2.target with
  | some sourcePos, some targetPos =>
    let direction := Vec3.sub targetPos sourcePos
    (p.1, { p.2 with object :=
      { p.2.object with position := Vec3.add sourcePos (direction.smul (1/2)) } })
  | _, _ => p

/-- The cable-repositioning loop of `updateScene` (lines 419–462). -/
def updateSceneCables (s : SceneState) : SceneState :=
  { s with cables := s.cables.map (repositionCable s) }

/-- `ThreeSceneService.updateScene` (lines 415–463): blink update, then
cable repositioning. -/
def updateScene (s : SceneState) (currentTime : Nat) : SceneState :=
  updateSceneCables (updateBlinkingPorts s currentTime)

/-- `ThreeSceneService.connectCable` (lines 229–313).  `loadOk` is the
outcome of `await this.loader.loadAsync(cableModelUrl)`: `false` means
the promise rejected and the `catch` block ran (nothing was added).  The
loaded GLB `cableObject` itself is positioned but never added to the
scene or the maps; the mesh actually added is the programmatic cylinder. -/
def connectCable (s : SceneState) (cableInstanceId : String)
    (source target : Endpoint) (loadOk : Bool) : SceneState :=
  match lookupA s.loadedModels source.modelId,
        lookupA s.loadedModels target.modelId with
  | some sourceModel, some targetModel =>
    match lookupA sourceModel.portAttachPoints source.portAttachName,
          lookupA targetModel.portAttachPoints target.portAttachName with
    | some sourceAttachPoint, some targetAttachPoint =>
      if loadOk then
        let sourcePos := sourceAttachPoint
        let targetPos := targetAttachPoint
        let direction := Vec3.sub targetPos sourcePos
        let cableMesh : CableMesh :=
          { name := cableInstanceId
            position := Vec3.add sourcePos (direction.smul (1/2))
            heightSq := direction.normSq
            material := { color := .hex 0x555555, emissive := .hex 0x000000 } }
        let s1 : SceneState :=
          { s with scene := s.scene ++ [cableInstanceId]
                 , cables := insertA s.cables cableInstanceId
                     { id := cableInstanceId, object := cableMesh
                     , source := source, target := target } }
        updateCableVisualsForPort s1 source.modelId
          (strReplaceFirst source.portAttachName "_Attach" "_Indicator")
      else s
    | _, _ => s
  | _, _ => s

/-- `ThreeSceneService.disconnectCable` (lines 315–330). -/
def disconnectCable (s : SceneState) (cableId : String) : SceneState :=
  match lookupA s.cables cableId with
  | none => s
  | some cableInfo =>
    { s with scene := s.scene.erase cableInfo.object.name
           , cables := eraseA s.cables cableId }

/-- One iteration of the `Object.keys(this.cables).forEach` loop in
`removeModelFromScene` (lines 141–146): look the key up in the current
`cables` map and disconnect if the cable touches the removed model. -/
def removeCableStep (modelInstanceId : String) (s : SceneState)
    (cableId : String) : SceneState :=
  match lookupA s.cables cableId with
  | none => s
  | some cable =>
    if cable.source.modelId == modelInstanceId ||
        cable.target.modelId == modelInstanceId then
      disconnectCable s cableId
    else s

/-- `ThreeSceneService.removeModelFromScene` (lines 137–163): iterate over
a snapshot of the cable keys disconnecting the touching ones, remove the
model root from the scene, and delete the `loadedModels` entry. -/
def removeModelFromScene (s : SceneState) (modelInstanceId : String) :
    SceneState :=
  match lookupA s.loadedModels modelInstanceId with
  | none => s
  | some _ =>
    let s1 := (s.cables.map Prod.fst).foldl (removeCableStep modelInstanceId) s
    { s1 with scene := s1.scene.erase modelInstanceId
            , loadedModels := eraseA s1.loadedModels modelInstanceId }

/-- `ThreeSceneService.dispose` (lines 472–494): both maps are cleared
together; the scene graph's objects have their geometries and materials
disposed but are not removed from the scene, so the `scene` list is
unchanged. -/
def dispose (s : SceneState) : SceneState :=
  { s with loadedModels := [], cables := [] }

/-! ### `addModelToScene` and the GLTF load -/

/-- One node of the traversal of a loaded `gltf.scene` (in `traverse`
order).  `isMesh` is the `child instanceof THREE.Mesh` test; `material`
the node's material (read only for indicator meshes); `worldPos` the world
position the engine reports for the node (read only for attach points). -/
structure GltfChild where
  name : String
  isMesh : Bool
  material : Material
  worldPos : Vec3
deriving DecidableEq, Repr

/-- The result of `this.loader.loadAsync(modelUrl)`: the traversal of the
loaded scene graph. -/
structure Gltf where
  children : List GltfChild
deriving DecidableEq, Repr

/-- The `modelRoot.traverse` callback's accumulation into `modelEntry`
(lines 113–128): indicator meshes become `portIndicators` entries whose
original color/emissive are cloned from the mesh material, `_Attach`
children become `portAttachPoints` entries. -/
def buildModelEntry (modelInstanceId : String) (g : Gltf) : LoadedModel :=
  g.children.foldl (fun entry child =>
    if child.isMesh && strEndsWith child.name "_Indicator" then
      let info : PortInfo :=
        { material := child.material
          originalColor := child.material.color
          originalEmissive := child.material.emissive }
      { entry with portIndicators := insertA entry.portIndicators child.name info }
    else if strEndsWith child.name "_Attach" then
      let aps := insertA entry.portAttachPoints child.name child.worldPos
      { entry with portAttachPoints := aps }
    else entry)
    { id := modelInstanceId, portIndicators := [], portAttachPoints := [] }

/-- The `setPortState(modelInstanceId, portName, 'inactive', false)` calls
the traversal makes for each indicator mesh (line 123).  They run before
`this.loadedModels[modelInstanceId]` is assigned (line 129), so each one
hits `setPortState`'s missing-model guard. -/
def initPortStateCalls (s : SceneState) (modelInstanceId : String) (g : Gltf) :
    SceneState :=
  (g.children.filter (fun c => c.isMesh && strEndsWith c.name "_Indicator")).foldl
    (fun acc c => setPortState acc modelInstanceId c.name "inactive" false) s

/-- `ThreeSceneService.addModelToScene` (lines 81–135).  `loadResult` is
the outcome of `await this.loader.loadAsync(modelUrl)`: `none` means the
promise rejected before anything was done, and the `catch` block only
logs.  The model root is renamed to `modelInstanceId` and added to the
scene before the traversal; the `position`/`rotation` arguments only
place the root and are not otherwise observable in this state. -/
def addModelToScene (s : SceneState) (modelInstanceId : String)
    (loadResult : Option Gltf) : SceneState :=
  if containsKey s.loadedModels modelInstanceId then s
  else
    match loadResult with
    | none => s
    | some g =>
      let s1 := { s with scene := s.scene ++ [modelInstanceId] }
      let s2 := initPortStateCalls s1 modelInstanceId g
      { s2 with loadedModels :=
          insertA s2.loadedModels modelInstanceId (buildModelEntry modelInstanceId g) }

/-! ### Click selection -/

/-- The `objectType` of an `onObjectSelected` event. -/
inductive ObjType where
  | port
  | device
deriving DecidableEq, Repr

/-- The payload of `ThreeSceneService.onObjectSelected`, which is also the
shape of `TopologyStateService`'s `SelectedObjectInfo`. -/
structure SelectedObjectInfo where
  modelId : String
  objectName : String
  objectType : ObjType
deriving DecidableEq, Repr

/-- The ancestor walk of `onCanvasClick` (lines 377–399) on the name chain
of the first intersected object (the object's own name first, then its
parents upward).  Each step checks the loaded-model map, then the
`_Indicator` suffix; in the indicator case the model id is searched for
strictly above the indicator, and a missing model root yields no
selection (the emit guard at line 401 fails). -/
def findSelection (loadedModels : List (String × LoadedModel)) :
    List String → Option SelectedObjectInfo
  | [] => none
  | n :: rest =>
    if containsKey loadedModels n then
      some { modelId := n, objectName := n, objectType := .device }
    else if strEndsWith n "_Indicator" then
      match rest.find? (fun p => containsKey loadedModels p) with
      | some mid => some { modelId := mid, objectName := n, objectType := .port }
      | none => none
    else findSelection loadedModels rest

/-- `ThreeSceneService.onCanvasClick` (lines 361–413), given the raycast
result: each intersected object is represented by its name chain, and
only the first intersection is inspected.  The returned value is the
payload passed to `onObjectSelected.next`, emitted exactly once inside
`ngZone.run`; `none` means no event is emitted. -/
def onCanvasClick (s : SceneState) (intersects : List (List String)) :
    Option SelectedObjectInfo :=
  match intersects with
  | [] => none
  | chain :: _ => findSelection s.loadedModels chain

/-! ### `TopologyStateService` -/

/-- `PortState` from `topology-state.service.ts`. -/
structure PortState where
  name : String
  status : String
  blinking : Bool
  connectedCableId : Option String
deriving DecidableEq, Repr

/-- `EulerRotation` from `topology-state.service.ts`. -/
structure EulerRotation where
  x : ℚ
  y : ℚ
  z : ℚ
  order : Option String
deriving DecidableEq, Repr

/-- `ModelInstance` from `topology-state.service.ts`. -/
structure ModelInstance where
  id : String
  modelDefinitionId : String
  assetUrl : String
  displayName : Option String
  position : Vec3
  rotation : EulerRotation
  ports : List PortState
deriving DecidableEq, Repr

/-- `CableConnection` from `topology-state.service.ts`. -/
structure CableConnection where
  id : String
  cableModelUrl : Option String
  source : Endpoint
  target : Endpoint
deriving DecidableEq, Repr

/-- `TopologyLayout` from `topology-state.service.ts`. -/
structure TopologyLayout where
  id : String
  name : String
  models : List ModelInstance
  connections : List CableConnection
deriving DecidableEq, Repr

/-- The `BehaviorSubject` values of `TopologyStateService` (the loading
flag is not touched by the verified operations). -/
structure StoreState where
  currentTopology : Option TopologyLayout
  selectedObject : Option SelectedObjectInfo
deriving DecidableEq, Repr

/-- `TopologyStateService.setSelectedObject` (lines 728–730). -/
def setSelectedObject (st : StoreState) (modelId objectName : String)
    (objectType : ObjType) : StoreState :=
  { st with selectedObject := some ⟨modelId, objectName, objectType⟩ }

/-- `TopologyStateService.clearSelectedObject` (lines 732–734). -/
def clearSelectedObject (st : StoreState) : StoreState :=
  { st with selectedObject := none }

/-- `TopologyStateService.removeModelInstance` (lines 657–670). -/
def removeModelInstance (st : StoreState) (modelId : String) : StoreState :=
  match st.currentTopology with
  | none => st
  | some t =>
    let updatedModels := t.models.filter (fun m => !(m.id == modelId))
    let updatedConnections := t.connections.filter (fun conn =>
      !(conn.source.modelId == modelId) && !(conn.target.modelId == modelId))
    let t1 := { t with models := updatedModels, connections := updatedConnections }
    let st1 := { st with currentTopology := some t1 }
    match st.selectedObject with
    | some sel => if sel.modelId == modelId then clearSelectedObject st1 else st1
    | none => st1

/-- `TopologyStateService.updatePortState` (lines 676–696): locate the
first model with the given id and its first port with the given name, and
rebuild the topology with only that port's `status` and `blinking`
replaced. -/
def updatePortState (st : StoreState) (modelId portName : String)
    (newStatus : String) (newBlinking : Bool) : StoreState :=
  match st.currentTopology with
  | none => st
  | some t =>
    match t.models.findIdx? (fun m => m.id == modelId) with
    | none => st
    | some modelIndex =>
      match t.models.get? modelIndex with
      | none => st
      | some model =>
        match model.ports.findIdx? (fun p => p.name == portName) with
        | none => st
        | some portIndex =>
          match model.ports.get? portIndex with
          | none => st
          | some port =>
            let newPort := { port with status := newStatus, blinking := newBlinking }
            let newModel := { model with ports := model.ports.set portIndex newPort }
            let t1 := { t with models := t.models.set modelIndex newModel }
            { st with currentTopology := some t1 }

/-- The `onObjectSelected` subscription of
`TopologyViewerComponent.ngOnInit` (lines 73–84): forward the selection
payload to the store unchanged. -/
def viewerForwardSelection (st : StoreState) (selected : SelectedObjectInfo) :
    StoreState :=
  setSelectedObject st selected.modelId selected.objectName selected.objectType

/-! ### Supporting lemmas -/

theorem lookupA_insertA_self {α : Type} (m : List (String × α)) (k : String)
    (v : α) : lookupA (insertA m k v) k = some v := by
  unfold insertA
  by_cases h : containsKey m k
  · rw [if_pos h, lookupA_updateA_self]
    unfold containsKey at h
    cases hm : lookupA m k with
    | none => rw [hm] at h; simp at h
    | some w => simp
  · rw [if_neg h]
    apply lookupA_append_right
    unfold containsKey at h
    cases hm : lookupA m k with
    | none => rfl
    | some w => rw [hm] at h; simp at h

theorem lookupA_insertA_ne {α : Type} (m : List (String × α)) (k k' : String)
    (v : α) (h : k' ≠ k) : lookupA (insertA m k v) k' = lookupA m k' := by
  unfold insertA
  by_cases hc : containsKey m k
  · rw [if_pos hc, lookupA_updateA_ne _ _ _ _ h]
  · rw [if_neg hc, lookupA_append_ne _ _ _ _ h]

theorem lookupA_map_of_fst {α β : Type} (g : String × α → String × β)
    (hg : ∀ p, (g p).1 = p.1) (l : List (String × α)) (k : String) :
    lookupA (l.map g) k = Option.map (fun v => (g (k, v)).2) (lookupA l k) := by
  induction l with
  | nil => rfl
  | cons p l ih =>
    by_cases h : p.1 = k
    · have hp : p = (k, p.2) := by rw [← h]
      simp only [List.map, lookupA, hg p, h, if_pos, beq_self_eq_true]
      rw [hp]
      rfl
    · simp only [List.map, lookupA, hg p]
      have hb : (p.1 == k) = false := by simp [h]
      rw [hb]
      simpa using ih

theorem containsKey_updateA {α : Type} (m : List (String × α)) (k x : String)
    (f : α → α) : containsKey (updateA m k f) x = containsKey m x := by
  unfold containsKey
  by_cases h : x = k
  · subst h; rw [lookupA_updateA_self]; cases lookupA m x <;> rfl
  · rw [lookupA_updateA_ne _ _ _ _ h]

theorem containsKey_eraseA_ne {α : Type} (m : List (String × α)) (k x : String)
    (h : x ≠ k) : containsKey (eraseA m k) x = containsKey m x := by
  unfold containsKey
  rw [lookupA_eraseA_ne _ _ _ h]

theorem containsKey_insertA_of {α : Type} (m : List (String × α)) (k x : String)
    (v : α) (h : containsKey m x = true) : containsKey (insertA m k v) x = true := by
  by_cases hx : x = k
  · subst hx; unfold containsKey; rw [lookupA_insertA_self]; rfl
  · unfold containsKey at h ⊢; rw [lookupA_insertA_ne _ _ _ _ hx]; exact h

theorem containsKey_map_of_fst {α β : Type} (g : String × α → String × β)
    (hg : ∀ p, (g p).1 = p.1) (l : List (String × α)) (k : String) :
    containsKey (l.map g) k = containsKey l k := by
  unfold containsKey
  rw [lookupA_map_of_fst g hg]
  cases lookupA l k <;> rfl

/-- The indicator state of one port, `loadedModels[mid]?.portIndicators[pn]`. -/
def getPortInfo (s : SceneState) (mid pn : String) : Option PortInfo :=
  match lookupA s.loadedModels mid with
  | none => none
  | some md => lookupA md.portIndicators pn

theorem updateCableVisualsForPort_loadedModels (s : SceneState) (a b : String) :
    (updateCableVisualsForPort s a b).loadedModels = s.loadedModels := rfl

theorem updateCableVisualsForPort_scene (s : SceneState) (a b : String) :
    (updateCableVisualsForPort s a b).scene = s.scene := rfl

theorem getPortInfo_updateCableVisualsForPort (s : SceneState) (a b x y : String) :
    getPortInfo (updateCableVisualsForPort s a b) x y = getPortInfo s x y := rfl

theorem recolorCable_shape (lm : List (String × LoadedModel)) (a b : String)
    (p : String × CableInfo) :
    (recolorCable lm a b p).1 = p.1 ∧
    (recolorCable lm a b p).2.id = p.2.id ∧
    (recolorCable lm a b p).2.source = p.2.source ∧
    (recolorCable lm a b p).2.target = p.2.target ∧
    (recolorCable lm a b p).2.object.name = p.2.object.name ∧
    (recolorCable lm a b p).2.object.position = p.2.object.position ∧
    (recolorCable lm a b p).2.object.heightSq = p.2.object.heightSq := by
  refine ⟨?_, ?_, ?_, ?_, ?_, ?_, ?_⟩
  all_goals unfold recolorCable
  all_goals repeat' (first | (dsimp only) | split)

/-- `setPortState` on a present port rewrites exactly that port's
`PortInfo` through `applyPortState`. -/
theorem getPortInfo_setPortState (s : SceneState)
    (mid pn st : String) (b : Bool) (md : LoadedModel) (pinfo : PortInfo)
    (hm : lookupA s.loadedModels mid = some md)
    (hp : lookupA md.portIndicators pn = some pinfo) :
    getPortInfo (setPortState s mid pn st b) mid pn
      = some (applyPortState st b pinfo) := by
  unfold setPortState
  simp only [hm, hp, getPortInfo_updateCableVisualsForPort]
  unfold getPortInfo
  simp [lookupA_updateA_self, hm, hp]

/-- `setPortState` is the identity when the model is not loaded. -/
theorem setPortState_not_loaded (s : SceneState) (mid pn st : String) (b : Bool)
    (h : lookupA s.loadedModels mid = none) :
    setPortState s mid pn st b = s := by
  unfold setPortState
  rw [h]

/-! ### Facts about `applyPortState` -/

theorem applyPortState_currentState (st : String) (b : Bool) (p : PortInfo) :
    (applyPortState st b p).currentState = some st := by
  unfold applyPortState
  split_ifs <;> rfl

theorem applyPortState_blinking (st : String) (b : Bool) (p : PortInfo) :
    (applyPortState st b p).blinking = (if st = "inactive" then false else b) := by
  unfold applyPortState
  by_cases h1 : st = "active"
  · subst h1; simp
  · by_cases h2 : st = "inactive"
    · subst h2; simp
    · by_cases h3 : st = "error"
      · subst h3; simp
      · simp [h1, h2, h3]

theorem applyPortState_material_const (st : String) (b : Bool) (p q : PortInfo) :
    (applyPortState st b p).material = (applyPortState st b q).material := by
  unfold applyPortState
  split_ifs <;> rfl

/-! ### Sample data for concrete evaluations -/

def sampleMaterial : Material :=
  { color := .hex 0xffffff, emissive := .hex 0x000000 }

def samplePortInfo : PortInfo :=
  { material := sampleMaterial
    originalColor := .hex 0xffffff
    originalEmissive := .hex 0x000000 }

def sampleModelA : LoadedModel :=
  { id := "m1"
    portIndicators := [("SwitchA_Port01_Indicator", samplePortInfo)]
    portAttachPoints := [("SwitchA_Port01_Attach", ⟨0, 0, 0⟩)] }

def sampleModelB : LoadedModel :=
  { id := "m2"
    portIndicators := []
    portAttachPoints := [("RouterB_Port03_Attach", ⟨0, 3, 0⟩)] }

def sampleScene : SceneState :=
  { scene := ["m1", "m2"]
    loadedModels := [("m1", sampleModelA), ("m2", sampleModelB)]
    cables := [] }

/-- A second sample port whose prior state differs from `samplePortInfo`
in every mutable field. -/
def samplePortInfo2 : PortInfo :=
  { material := { color := .hex 0xff0000, emissive := .hex 0x880000 }
    originalColor := .hex 0xffffff
    originalEmissive := .hex 0x000000
    blinking := true
    blinkOn := true
    lastBlinkTime := some 100
    currentState := some "error" }

def sampleModelA2 : LoadedModel :=
  { id := "m1"
    portIndicators := [("SwitchA_Port01_Indicator", samplePortInfo2)]
    portAttachPoints := [("SwitchA_Port01_Attach", ⟨0, 0, 0⟩)] }

def sampleScene2 : SceneState :=
  { scene := ["m1", "m2"]
    loadedModels := [("m1", sampleModelA2), ("m2", sampleModelB)]
    cables := [] }

/-! ### Claim theorems -/

/-- C1: for every loaded model instance and every port indicator
registered on it, `setPortState(modelInstanceId, portName, state,
blinking)` sets the indicator material's color to green (`0x00ff00`) when
`state` is `'active'`, to gray (`0x808080`) with black emissive when
`state` is `'inactive'`, and to red (`0xff0000`) when `state` is
`'error'`; for any other state string the material color is set from that
string and the emissive is set to black. -/
theorem setPortState_sets_indicator_material
    (s : SceneState) (modelInstanceId portName state : String) (blinking : Bool)
    (md : LoadedModel) (pinfo : PortInfo)
    (hm : lookupA s.loadedModels modelInstanceId = some md)
    (hp : lookupA md.portIndicators portName = some pinfo) :
    ∃ pinfo',
      getPortInfo (setPortState s modelInstanceId portName state blinking)
          modelInstanceId portName = some pinfo' ∧
      (state = "active" → pinfo'.material.color = ColorVal.hex 0x00ff00) ∧
      (state = "inactive" → pinfo'.material.color = ColorVal.hex 0x808080 ∧
        pinfo'.material.emissive = ColorVal.hex 0x000000) ∧
      (state = "error" → pinfo'.material.color = ColorVal.hex 0xff0000) ∧
      (state ≠ "active" → state ≠ "inactive" → state ≠ "error" →
        pinfo'.material.color = ColorVal.css state ∧
        pinfo'.material.emissive = ColorVal.hex 0x000000) := by
  refine ⟨applyPortState state blinking pinfo,
    getPortInfo_setPortState s modelInstanceId portName state blinking md pinfo hm hp,
    ?_, ?_, ?_, ?_⟩
  · intro h; subst h; simp [applyPortState]
  · intro h; subst h; simp [applyPortState]
  · intro h; subst h; simp [applyPortState]
  · intro h1 h2 h3; constructor <;> simp [applyPortState, h1, h2, h3]

/-- Concrete run of `setPortState_sets_indicator_material`: the sample
port turned `'active'`. -/
theorem setPortState_sets_indicator_material_witness :
    lookupA sampleScene.loadedModels "m1" = some sampleModelA ∧
    lookupA sampleModelA.portIndicators "SwitchA_Port01_Indicator"
      = some samplePortInfo ∧
    ∃ pinfo',
      getPortInfo (setPortState sampleScene "m1" "SwitchA_Port01_Indicator"
          "active" true) "m1" "SwitchA_Port01_Indicator" = some pinfo' ∧
      ("active" = "active" → pinfo'.material.color = ColorVal.hex 0x00ff00) ∧
      ("active" = "inactive" → pinfo'.material.color = ColorVal.hex 0x808080 ∧
        pinfo'.material.emissive = ColorVal.hex 0x000000) ∧
      ("active" = "error" → pinfo'.material.color = ColorVal.hex 0xff0000) ∧
      ("active" ≠ "active" → "active" ≠ "inactive" → "active" ≠ "error" →
        pinfo'.material.color = ColorVal.css "active" ∧
        pinfo'.material.emissive = ColorVal.hex 0x000000) :=
  ⟨rfl, rfl,
    setPortState_sets_indicator_material sampleScene "m1"
      "SwitchA_Port01_Indicator" "active" true sampleModelA samplePortInfo rfl rfl⟩

/-- C7: after `setPortState` on an existing indicator, the stored state is
a function of the call's arguments alone: `currentState` equals `state`,
the stored `blinking` flag equals the argument except that it is forced to
`false` for `'inactive'`, and two runs from any two prior port states
agree on the stored `(currentState, blinking)` and the whole material. -/
theorem setPortState_state_determined_by_args
    (s₁ s₂ : SceneState) (modelInstanceId portName state : String) (blinking : Bool)
    (md₁ md₂ : LoadedModel) (p₁ p₂ : PortInfo)
    (hm₁ : lookupA s₁.loadedModels modelInstanceId = some md₁)
    (hp₁ : lookupA md₁.portIndicators portName = some p₁)
    (hm₂ : lookupA s₂.loadedModels modelInstanceId = some md₂)
    (hp₂ : lookupA md₂.portIndicators portName = some p₂) :
    ∃ r₁ r₂,
      getPortInfo (setPortState s₁ modelInstanceId portName state blinking)
          modelInstanceId portName = some r₁ ∧
      getPortInfo (setPortState s₂ modelInstanceId portName state blinking)
          modelInstanceId portName = some r₂ ∧
      r₁.currentState = some state ∧
      r₁.blinking = (if state = "inactive" then false else blinking) ∧
      r₂.currentState = r₁.currentState ∧
      r₂.blinking = r₁.blinking ∧
      r₂.material = r₁.material := by
  refine ⟨applyPortState state blinking p₁, applyPortState state blinking p₂,
    getPortInfo_setPortState s₁ modelInstanceId portName state blinking md₁ p₁ hm₁ hp₁,
    getPortInfo_setPortState s₂ modelInstanceId portName state blinking md₂ p₂ hm₂ hp₂,
    applyPortState_currentState state blinking p₁, applyPortState_blinking state blinking p₁,
    ?_, ?_, applyPortState_material_const state blinking p₂ p₁⟩
  · rw [applyPortState_currentState, applyPortState_currentState]
  · rw [applyPortState_blinking, applyPortState_blinking]

/-- Concrete run of `setPortState_state_determined_by_args`: two sample
states whose port differs in its prior state agree after the call. -/
theorem setPortState_state_determined_witness :
    lookupA sampleScene.loadedModels "m1" = some sampleModelA ∧
    lookupA sampleModelA.portIndicators "SwitchA_Port01_Indicator"
      = some samplePortInfo ∧
    lookupA sampleScene2.loadedModels "m1" = some sampleModelA2 ∧
    lookupA sampleModelA2.portIndicators "SwitchA_Port01_Indicator"
      = some samplePortInfo2 ∧
    ∃ r₁ r₂,
      getPortInfo (setPortState sampleScene "m1" "SwitchA_Port01_Indicator"
          "inactive" true) "m1" "SwitchA_Port01_Indicator" = some r₁ ∧
      getPortInfo (setPortState sampleScene2 "m1" "SwitchA_Port01_Indicator"
          "inactive" true) "m1" "SwitchA_Port01_Indicator" = some r₂ ∧
      r₁.currentState = some "inactive" ∧
      r₁.blinking = (if "inactive" = "inactive" then false else true) ∧
      r₂.currentState = r₁.currentState ∧
      r₂.blinking = r₁.blinking ∧
      r₂.material = r₁.material :=
  ⟨rfl, rfl, rfl, rfl,
    setPortState_state_determined_by_args sampleScene sampleScene2 "m1"
      "SwitchA_Port01_Indicator" "inactive" true sampleModelA sampleModelA2
      samplePortInfo samplePortInfo2 rfl rfl rfl rfl⟩

/-! ### Sample store data -/

def samplePort1 : PortState :=
  { name := "SwitchA_Port01_Indicator", status := "active"
    blinking := false, connectedCableId := none }

def samplePort2 : PortState :=
  { name := "SwitchA_Port02_Indicator", status := "inactive"
    blinking := false, connectedCableId := some "c9" }

def sampleMI1 : ModelInstance :=
  { id := "m1", modelDefinitionId := "Switch_ModelA"
    assetUrl := "assets/models/Switch_ModelA.glb"
    displayName := some "Switch 1"
    position := ⟨0, 0, 0⟩, rotation := ⟨0, 0, 0, some "XYZ"⟩
    ports := [samplePort1, samplePort2] }

def sampleMI2 : ModelInstance :=
  { id := "m2", modelDefinitionId := "Router_ModelB"
    assetUrl := "assets/models/Router_ModelB.glb"
    displayName := none
    position := ⟨1, 0, 2⟩, rotation := ⟨0, 0, 0, none⟩
    ports := [] }

def sampleConn1 : CableConnection :=
  { id := "c1", cableModelUrl := none
    source := ⟨"m1", "SwitchA_Port01_Attach"⟩
    target := ⟨"m2", "RouterB_Port03_Attach"⟩ }

def sampleConn2 : CableConnection :=
  { id := "c2", cableModelUrl := some "assets/models/cable.glb"
    source := ⟨"m2", "RouterB_Port01_Attach"⟩
    target := ⟨"m2", "RouterB_Port02_Attach"⟩ }

def sampleTopology : TopologyLayout :=
  { id := "t1", name := "Main"
    models := [sampleMI1, sampleMI2]
    connections := [sampleConn1, sampleConn2] }

def sampleStore : StoreState :=
  { currentTopology := some sampleTopology, selectedObject := none }

def sampleEmptyStore : StoreState :=
  { currentTopology := none, selectedObject := none }

/-- C4: with a topology loaded, `removeModelInstance(modelId)` removes
exactly the model with that id and every connection with an endpoint on
it, keeping everything else in order; with no topology loaded the store
is unchanged. -/
theorem removeModelInstance_filters_topology
    (st : StoreState) (t : TopologyLayout) (modelId : String)
    (h : st.currentTopology = some t) :
    (∃ t', (removeModelInstance st modelId).currentTopology = some t' ∧
       t'.id = t.id ∧ t'.name = t.name ∧
       t'.models = t.models.filter (fun m => !(m.id == modelId)) ∧
       t'.connections = t.connections.filter (fun conn =>
         !(conn.source.modelId == modelId) && !(conn.target.modelId == modelId)) ∧
       t'.models.Sublist t.models ∧
       t'.connections.Sublist t.connections ∧
       (∀ m ∈ t'.models, m.id ≠ modelId) ∧
       (∀ m ∈ t.models, m.id ≠ modelId → m ∈ t'.models) ∧
       (∀ c ∈ t'.connections,
          c.source.modelId ≠ modelId ∧ c.target.modelId ≠ modelId) ∧
       (∀ c ∈ t.connections, c.source.modelId ≠ modelId →
          c.target.modelId ≠ modelId → c ∈ t'.connections)) ∧
    (∀ st₂ : StoreState, st₂.currentTopology = none →
       removeModelInstance st₂ modelId = st₂) := by
  constructor
  · refine ⟨{ t with
        models := t.models.filter (fun m => !(m.id == modelId))
        connections := t.connections.filter (fun conn =>
          !(conn.source.modelId == modelId) && !(conn.target.modelId == modelId)) },
      ?_, rfl, rfl, rfl, rfl, List.filter_sublist _, List.filter_sublist _,
      ?_, ?_, ?_, ?_⟩
    · unfold removeModelInstance
      rw [h]
      cases hsel : st.selectedObject with
      | none => simp [hsel]
      | some sel =>
        by_cases hid : (sel.modelId == modelId) = true
        · simp [hsel, hid, clearSelectedObject]
        · simp [hsel, hid]
    · intro m hm
      simp only [List.mem_filter] at hm
      simpa using hm.2
    · intro m hm hne
      simp only [List.mem_filter]
      exact ⟨hm, by simpa using hne⟩
    · intro c hc
      simp only [List.mem_filter, Bool.and_eq_true] at hc
      exact ⟨by simpa using hc.2.1, by simpa using hc.2.2⟩
    · intro c hc h1 h2
      simp only [List.mem_filter, Bool.and_eq_true]
      exact ⟨hc, by simpa using h1, by simpa using h2⟩
  · intro st₂ h₂
    unfold removeModelInstance
    rw [h₂]

/-- Concrete run of `removeModelInstance_filters_topology`: removing
`"m1"` from the sample topology. -/
theorem removeModelInstance_filters_topology_witness :
    sampleStore.currentTopology = some sampleTopology ∧
    (∃ t', (removeModelInstance sampleStore "m1").currentTopology = some t' ∧
       t'.id = sampleTopology.id ∧ t'.name = sampleTopology.name ∧
       t'.models = sampleTopology.models.filter (fun m => !(m.id == "m1")) ∧
       t'.connections = sampleTopology.connections.filter (fun conn =>
         !(conn.source.modelId == "m1") && !(conn.target.modelId == "m1")) ∧
       t'.models.Sublist sampleTopology.models ∧
       t'.connections.Sublist sampleTopology.connections ∧
       (∀ m ∈ t'.models, m.id ≠ "m1") ∧
       (∀ m ∈ sampleTopology.models, m.id ≠ "m1" → m ∈ t'.models) ∧
       (∀ c ∈ t'.connections,
          c.source.modelId ≠ "m1" ∧ c.target.modelId ≠ "m1") ∧
       (∀ c ∈ sampleTopology.connections, c.source.modelId ≠ "m1" →
          c.target.modelId ≠ "m1" → c ∈ t'.connections)) ∧
    removeModelInstance sampleEmptyStore "m1" = sampleEmptyStore :=
  ⟨rfl,
    (removeModelInstance_filters_topology sampleStore sampleTopology "m1" rfl).1,
    (removeModelInstance_filters_topology sampleStore sampleTopology "m1" rfl).2
      sampleEmptyStore rfl⟩

/-- C6: `updatePortState(modelId, portName, newStatus, newBlinking)` on a
loaded topology changes only the `status` and `blinking` fields of the
single addressed port; the topology's id and name, every connection,
every other model, every other port of the same model, and the remaining
fields of the updated port are unchanged; with no matching model or port
the topology is entirely unchanged. -/
theorem updatePortState_updates_single_port
    (st : StoreState) (t : TopologyLayout) (modelId portName newStatus : String)
    (newBlinking : Bool) (mi pi : Nat) (model : ModelInstance) (port : PortState)
    (ht : st.currentTopology = some t)
    (hmi : t.models.findIdx? (fun m => m.id == modelId) = some mi)
    (hmodel : t.models.get? mi = some model)
    (hpi : model.ports.findIdx? (fun p => p.name == portName) = some pi)
    (hport : model.ports.get? pi = some port) :
    (updatePortState st modelId portName newStatus newBlinking).selectedObject
        = st.selectedObject ∧
    (∃ t', (updatePortState st modelId portName newStatus
          newBlinking).currentTopology = some t' ∧
      t'.id = t.id ∧ t'.name = t.name ∧ t'.connections = t.connections ∧
      t'.models.length = t.models.length ∧
      (∀ j, j ≠ mi → t'.models.get? j = t.models.get? j) ∧
      (∃ model', t'.models.get? mi = some model' ∧
        model'.id = model.id ∧
        model'.modelDefinitionId = model.modelDefinitionId ∧
        model'.assetUrl = model.assetUrl ∧
        model'.displayName = model.displayName ∧
        model'.position = model.position ∧
        model'.rotation = model.rotation ∧
        model'.ports.length = model.ports.length ∧
        (∀ j, j ≠ pi → model'.ports.get? j = model.ports.get? j) ∧
        (∃ port', model'.ports.get? pi = some port' ∧
          port'.name = port.name ∧
          port'.connectedCableId = port.connectedCableId ∧
          port'.status = newStatus ∧ port'.blinking = newBlinking))) ∧
    (∀ st₂ t₂, st₂.currentTopology = some t₂ →
       t₂.models.findIdx? (fun m => m.id == modelId) = none →
       updatePortState st₂ modelId portName newStatus newBlinking = st₂) ∧
    (∀ st₂ t₂ mi₂ model₂, st₂.currentTopology = some t₂ →
       t₂.models.findIdx? (fun m => m.id == modelId) = some mi₂ →
       t₂.models.get? mi₂ = some model₂ →
       model₂.ports.findIdx? (fun p => p.name == portName) = none →
       updatePortState st₂ modelId portName newStatus newBlinking = st₂) := by
  refine ⟨?_, ?_, ?_, ?_⟩
  · unfold updatePortState
    simp only [ht, hmi, hmodel, hpi, hport]
  · unfold updatePortState
    simp only [ht, hmi, hmodel, hpi, hport]
    refine ⟨_, rfl, rfl, rfl, rfl, List.length_set _ _ _, ?_, ?_⟩
    · intro j hj
      exact List.get?_set_ne _ _ (fun he => hj he.symm)
    · refine ⟨{ model with ports := model.ports.set pi { port with status := newStatus, blinking := newBlinking } }, ?_, rfl, rfl, rfl, rfl, rfl, rfl, List.length_set _ _ _, ?_, ?_⟩
      · rw [List.get?_set_eq, hmodel]
        rfl
      · intro j hj
        exact List.get?_set_ne _ _ (fun he => hj he.symm)
      · refine ⟨{ port with status := newStatus, blinking := newBlinking }, ?_, rfl, rfl, rfl, rfl⟩
        rw [List.get?_set_eq, hport]
        rfl
  · intro st₂ t₂ h₂ hn
    unfold updatePortState
    simp only [h₂, hn]
  · intro st₂ t₂ mi₂ model₂ h₂ hm₂ hg₂ hn₂
    unfold updatePortState
    simp only [h₂, hm₂, hg₂, hn₂]

/-- Concrete run of `updatePortState_updates_single_port`: setting the
first sample port of model `"m1"` to `('error', true)`. -/
theorem updatePortState_updates_single_port_witness :
    sampleStore.currentTopology = some sampleTopology ∧
    sampleTopology.models.findIdx? (fun m => m.id == "m1") = some 0 ∧
    sampleTopology.models.get? 0 = some sampleMI1 ∧
    sampleMI1.ports.findIdx? (fun p => p.name == "SwitchA_Port01_Indicator")
      = some 0 ∧
    sampleMI1.ports.get? 0 = some samplePort1 ∧
    ((updatePortState sampleStore "m1" "SwitchA_Port01_Indicator" "error"
        true).selectedObject = sampleStore.selectedObject ∧
    (∃ t', (updatePortState sampleStore "m1" "SwitchA_Port01_Indicator" "error"
          true).currentTopology = some t' ∧
      t'.id = sampleTopology.id ∧ t'.name = sampleTopology.name ∧
      t'.connections = sampleTopology.connections ∧
      t'.models.length = sampleTopology.models.length ∧
      (∀ j, j ≠ 0 → t'.models.get? j = sampleTopology.models.get? j) ∧
      (∃ model', t'.models.get? 0 = some model' ∧
        model'.id = sampleMI1.id ∧
        model'.modelDefinitionId = sampleMI1.modelDefinitionId ∧
        model'.assetUrl = sampleMI1.assetUrl ∧
        model'.displayName = sampleMI1.displayName ∧
        model'.position = sampleMI1.position ∧
        model'.rotation = sampleMI1.rotation ∧
        model'.ports.length = sampleMI1.ports.length ∧
        (∀ j, j ≠ 0 → model'.ports.get? j = sampleMI1.ports.get? j) ∧
        (∃ port', model'.ports.get? 0 = some port' ∧
          port'.name = samplePort1.name ∧
          port'.connectedCableId = samplePort1.connectedCableId ∧
          port'.status = "error" ∧ port'.blinking = true))) ∧
    (∀ st₂ t₂, st₂.currentTopology = some t₂ →
       t₂.models.findIdx? (fun m => m.id == "m1") = none →
       updatePortState st₂ "m1" "SwitchA_Port01_Indicator" "error" true = st₂) ∧
    (∀ st₂ t₂ mi₂ model₂, st₂.currentTopology = some t₂ →
       t₂.models.findIdx? (fun m => m.id == "m1") = some mi₂ →
       t₂.models.get? mi₂ = some model₂ →
       model₂.ports.findIdx?
         (fun p => p.name == "SwitchA_Port01_Indicator") = none →
       updatePortState st₂ "m1" "SwitchA_Port01_Indicator" "error" true = st₂)) :=
  ⟨rfl, rfl, rfl, rfl, rfl,
    updatePortState_updates_single_port sampleStore sampleTopology "m1"
      "SwitchA_Port01_Indicator" "error" true 0 0 sampleMI1 samplePort1
      rfl rfl rfl rfl rfl⟩

/-! ### Facts about `blinkPort` and `updateScene` -/

theorem getPortInfo_updateScene (s : SceneState) (now : Nat) (mid pn : String) :
    getPortInfo (updateScene s now) mid pn
      = (getPortInfo s mid pn).map (blinkPort now) := by
  show getPortInfo (updateBlinkingPorts s now) mid pn = _
  unfold getPortInfo updateBlinkingPorts
  dsimp only
  have h1 := lookupA_map_of_fst (fun q : String × LoadedModel => (q.1, ({ id := q.2.id, portIndicators := List.map (fun r => (r.1, blinkPort now r.2)) q.2.portIndicators, portAttachPoints := q.2.portAttachPoints } : LoadedModel))) (fun p => rfl) s.loadedModels mid
  rw [h1]
  cases hm : lookupA s.loadedModels mid with
  | none => rfl
  | some md =>
    dsimp only [Option.map]
    have h2 := lookupA_map_of_fst (fun r : String × PortInfo => (r.1, blinkPort now r.2)) (fun p => rfl) md.portIndicators pn
    rw [h2]
    cases hp : lookupA md.portIndicators pn <;> rfl

theorem blinkPort_of_not_blinking (now : Nat) (p : PortInfo)
    (h : p.blinking = false) : blinkPort now p = p := by
  unfold blinkPort
  rw [h]
  rfl

theorem blinkPort_of_not_due (now : Nat) (p : PortInfo)
    (h : blinkDue now p = false) : blinkPort now p = p := by
  unfold blinkPort
  rw [h]
  split <;> rfl

theorem blinkPort_toggles (now : Nat) (p : PortInfo)
    (h1 : p.blinking = true) (h2 : blinkDue now p = true) :
    (blinkPort now p).blinkOn = !p.blinkOn ∧
    (blinkPort now p).lastBlinkTime = some now ∧
    (p.currentState = some "active" →
      (blinkPort now p).material.emissive
        = ColorVal.hex (if p.blinkOn then 0x003300 else 0x00ff00)) ∧
    (p.currentState = some "error" →
      (blinkPort now p).material.emissive
        = ColorVal.hex (if p.blinkOn then 0x330000 else 0xff0000)) := by
  unfold blinkPort
  rw [h1, h2]
  simp only [if_true]
  refine ⟨?_, ?_, ?_, ?_⟩
  · split_ifs <;> rfl
  · split_ifs <;> rfl
  · intro hs
    cases hb : p.blinkOn <;> simp [hs, hb]
  · intro hs
    cases hb : p.blinkOn <;> simp [hs, hb]

/-- C5: a port whose `blinking` flag is `false` is never changed by
`updateScene`; a toggle of `blinkOn` happens only when at least
`BLINK_INTERVAL` (500 ms) of wall-clock time has elapsed since the port's
previous toggle (recorded in `lastBlinkTime`, always a positive
timestamp); and a due blinking port in state `'active'` or `'error'` has
its emissive toggled between the bright and the dim value of its state
color. -/
theorem updateScene_blink_spec
    (s : SceneState) (now : Nat) (mid pn : String) (p : PortInfo)
    (hp : getPortInfo s mid pn = some p)
    (hpos : ∀ t, p.lastBlinkTime = some t → 0 < t) :
    ∃ p', getPortInfo (updateScene s now) mid pn = some p' ∧
      (p.blinking = false → p' = p) ∧
      (p'.blinkOn ≠ p.blinkOn → ∀ t, p.lastBlinkTime = some t →
         BLINK_INTERVAL ≤ now - t) ∧
      (p.blinking = true → p.currentState = some "active" →
        (p.lastBlinkTime = none ∨
          (∃ t, p.lastBlinkTime = some t ∧ BLINK_INTERVAL < now - t)) →
        p'.blinkOn = !p.blinkOn ∧ p'.lastBlinkTime = some now ∧
        p'.material.emissive
          = ColorVal.hex (if p.blinkOn then 0x003300 else 0x00ff00)) ∧
      (p.blinking = true → p.currentState = some "error" →
        (p.lastBlinkTime = none ∨
          (∃ t, p.lastBlinkTime = some t ∧ BLINK_INTERVAL < now - t)) →
        p'.blinkOn = !p.blinkOn ∧ p'.lastBlinkTime = some now ∧
        p'.material.emissive
          = ColorVal.hex (if p.blinkOn then 0x330000 else 0xff0000)) := by
  refine ⟨blinkPort now p, by rw [getPortInfo_updateScene, hp]; rfl, ?_, ?_, ?_, ?_⟩
  · exact blinkPort_of_not_blinking now p
  · intro hne t ht
    cases hb : p.blinking with
    | false => exact absurd (congrArg PortInfo.blinkOn
        (blinkPort_of_not_blinking now p hb)) hne
    | true =>
      cases hd : blinkDue now p with
      | false => exact absurd (congrArg PortInfo.blinkOn
          (blinkPort_of_not_due now p hd)) hne
      | true =>
        unfold blinkDue at hd
        rw [ht] at hd
        have htz : ¬(t == 0) = true := by
          simp only [beq_iff_eq]
          exact Nat.pos_iff_ne_zero.mp (hpos t ht)
        rcases Bool.or_eq_true_iff.mp hd with hd | hd
        · exact absurd hd htz
        · exact Nat.le_of_lt (of_decide_eq_true hd)
  · intro hb hs hdisj
    have hd : blinkDue now p = true := by
      rcases hdisj with hn | ⟨t, ht, hgt⟩
      · unfold blinkDue; rw [hn]
      · unfold blinkDue; rw [ht]
        simp [hgt]
    have := blinkPort_toggles now p hb hd
    exact ⟨this.1, this.2.1, this.2.2.1 hs⟩
  · intro hb hs hdisj
    have hd : blinkDue now p = true := by
      rcases hdisj with hn | ⟨t, ht, hgt⟩
      · unfold blinkDue; rw [hn]
      · unfold blinkDue; rw [ht]
        simp [hgt]
    have := blinkPort_toggles now p hb hd
    exact ⟨this.1, this.2.1, this.2.2.2 hs⟩

/-- Concrete run of `updateScene_blink_spec`: the sample blinking
`'error'` port last toggled at 100 ms, updated at 601 ms. -/
theorem updateScene_blink_witness :
    getPortInfo sampleScene2 "m1" "SwitchA_Port01_Indicator"
      = some samplePortInfo2 ∧
    ∃ p', getPortInfo (updateScene sampleScene2 601) "m1"
        "SwitchA_Port01_Indicator" = some p' ∧
      (samplePortInfo2.blinking = false → p' = samplePortInfo2) ∧
      (p'.blinkOn ≠ samplePortInfo2.blinkOn →
        ∀ t, samplePortInfo2.lastBlinkTime = some t →
          BLINK_INTERVAL ≤ 601 - t) ∧
      (samplePortInfo2.blinking = true →
        samplePortInfo2.currentState = some "active" →
        (samplePortInfo2.lastBlinkTime = none ∨
          (∃ t, samplePortInfo2.lastBlinkTime = some t ∧
            BLINK_INTERVAL < 601 - t)) →
        p'.blinkOn = !samplePortInfo2.blinkOn ∧ p'.lastBlinkTime = some 601 ∧
        p'.material.emissive = ColorVal.hex
          (if samplePortInfo2.blinkOn then 0x003300 else 0x00ff00)) ∧
      (samplePortInfo2.blinking = true →
        samplePortInfo2.currentState = some "error" →
        (samplePortInfo2.lastBlinkTime = none ∨
          (∃ t, samplePortInfo2.lastBlinkTime = some t ∧
            BLINK_INTERVAL < 601 - t)) →
        p'.blinkOn = !samplePortInfo2.blinkOn ∧ p'.lastBlinkTime = some 601 ∧
        p'.material.emissive = ColorVal.hex
          (if samplePortInfo2.blinkOn then 0x330000 else 0xff0000)) :=
  ⟨rfl, updateScene_blink_spec sampleScene2 601 "m1" "SwitchA_Port01_Indicator"
    samplePortInfo2 rfl
    (by intro t ht; injection ht with h; subst h; decide)⟩

/-! ### Facts about `addModelToScene` -/

theorem initPortStateCalls_not_loaded (s : SceneState) (mid : String) (g : Gltf)
    (h : lookupA s.loadedModels mid = none) :
    initPortStateCalls s mid g = s := by
  unfold initPortStateCalls
  generalize (g.children.filter (fun c => c.isMesh && strEndsWith c.name "_Indicator")) = cs
  induction cs with
  | nil => rfl
  | cons c cs ih =>
    simp only [List.foldl_cons]
    rw [setPortState_not_loaded s mid c.name "inactive" false h]
    exact ih

theorem lookupA_eq_none_of_not_containsKey {α : Type} {m : List (String × α)}
    {k : String} (h : containsKey m k = false) : lookupA m k = none := by
  unfold containsKey at h
  cases hl : lookupA m k with
  | none => rfl
  | some v => rw [hl] at h; simp at h

theorem addModelToScene_duplicate (s : SceneState) (mid : String)
    (r : Option Gltf) (h : containsKey s.loadedModels mid = true) :
    addModelToScene s mid r = s := by
  unfold addModelToScene
  rw [if_pos h]

/-- C9: `addModelToScene` leaves `loadedModels` and the scene's model
roots unchanged unless the id is fresh and the asset loads: a duplicate
id returns after only logging, a load error adds nothing, and a
successful fresh load appends exactly one scene root and one
`loadedModels` entry; re-adding the same id afterwards changes nothing,
so re-delivering a topology does not create duplicate scene entries. -/
theorem addModelToScene_spec (s : SceneState) (mid : String) (g : Gltf) :
    (containsKey s.loadedModels mid = true →
       ∀ r : Option Gltf, addModelToScene s mid r = s) ∧
    (addModelToScene s mid none = s) ∧
    (containsKey s.loadedModels mid = false →
       (addModelToScene s mid (some g)).scene = s.scene ++ [mid] ∧
       (addModelToScene s mid (some g)).loadedModels
         = s.loadedModels ++ [(mid, buildModelEntry mid g)] ∧
       (addModelToScene s mid (some g)).cables = s.cables ∧
       (∀ r₂ : Option Gltf,
          addModelToScene (addModelToScene s mid (some g)) mid r₂
            = addModelToScene s mid (some g))) := by
  refine ⟨?_, ?_, ?_⟩
  · intro h r
    exact addModelToScene_duplicate s mid r h
  · unfold addModelToScene
    split <;> rfl
  · intro h
    have hn : lookupA s.loadedModels mid = none :=
      lookupA_eq_none_of_not_containsKey h
    have hn1 : lookupA ({ s with scene := s.scene ++ [mid] } :
        SceneState).loadedModels mid = none := hn
    have hred : addModelToScene s mid (some g)
        = { s with scene := s.scene ++ [mid]
                 , loadedModels := s.loadedModels ++ [(mid, buildModelEntry mid g)] } := by
      unfold addModelToScene
      rw [if_neg (by simp [h])]
      dsimp only
      rw [initPortStateCalls_not_loaded _ _ _ hn1]
      unfold insertA
      rw [if_neg (by simp [containsKey, hn1])]
    refine ⟨by rw [hred], by rw [hred], by rw [hred], ?_⟩
    intro r₂
    have hk : containsKey (addModelToScene s mid (some g)).loadedModels mid = true := by
      rw [hred]
      unfold containsKey
      rw [lookupA_append_right _ _ _ hn]
      rfl
    exact addModelToScene_duplicate _ mid r₂ hk

/-- A sample loaded GLB scene graph: one indicator mesh, one attach
point, one plain body mesh. -/
def sampleGltf : Gltf :=
  { children :=
      [ { name := "SwitchA_Port01_Indicator", isMesh := true
          material := sampleMaterial, worldPos := ⟨0, 0, 0⟩ }
      , { name := "SwitchA_Port01_Attach", isMesh := false
          material := sampleMaterial, worldPos := ⟨1, 0, 0⟩ }
      , { name := "Body", isMesh := true
          material := sampleMaterial, worldPos := ⟨0, 0, 0⟩ } ] }

/-- Concrete run of `addModelToScene_spec`: duplicate id `"m1"`, load
failure, and a fresh successful load of `"m3"` followed by a re-add. -/
theorem addModelToScene_spec_witness :
    containsKey sampleScene.loadedModels "m1" = true ∧
    containsKey sampleScene.loadedModels "m3" = false ∧
    addModelToScene sampleScene "m1" (some sampleGltf) = sampleScene ∧
    addModelToScene sampleScene "m3" none = sampleScene ∧
    (addModelToScene sampleScene "m3" (some sampleGltf)).scene
      = sampleScene.scene ++ ["m3"] ∧
    (addModelToScene sampleScene "m3" (some sampleGltf)).loadedModels
      = sampleScene.loadedModels ++ [("m3", buildModelEntry "m3" sampleGltf)] ∧
    (addModelToScene sampleScene "m3" (some sampleGltf)).cables
      = sampleScene.cables ∧
    addModelToScene (addModelToScene sampleScene "m3" (some sampleGltf)) "m3"
        (some sampleGltf)
      = addModelToScene sampleScene "m3" (some sampleGltf) :=
  ⟨rfl, rfl,
    (addModelToScene_spec sampleScene "m1" sampleGltf).1 rfl (some sampleGltf),
    (addModelToScene_spec sampleScene "m3" sampleGltf).2.1,
    ((addModelToScene_spec sampleScene "m3" sampleGltf).2.2 rfl).1,
    ((addModelToScene_spec sampleScene "m3" sampleGltf).2.2 rfl).2.1,
    ((addModelToScene_spec sampleScene "m3" sampleGltf).2.2 rfl).2.2.1,
    ((addModelToScene_spec sampleScene "m3" sampleGltf).2.2 rfl).2.2.2
      (some sampleGltf)⟩

/-! ### Facts about `findSelection` -/

theorem findSelection_skip (lm : List (String × LoadedModel))
    (pre l : List String)
    (hpre : ∀ m ∈ pre, containsKey lm m = false ∧
        strEndsWith m "_Indicator" = false) :
    findSelection lm (pre ++ l) = findSelection lm l := by
  induction pre with
  | nil => rfl
  | cons a pre ih =>
    have ha := hpre a (List.mem_cons_self a pre)
    have ih' := ih (fun m hm => hpre m (List.mem_cons_of_mem a hm))
    simp only [List.cons_append, findSelection, ha.1, ha.2]
    simpa using ih'

theorem findSelection_no_model (lm : List (String × LoadedModel))
    (chain : List String) (h : ∀ m ∈ chain, containsKey lm m = false) :
    findSelection lm chain = none := by
  induction chain with
  | nil => rfl
  | cons n rest ih =>
    have hn := h n (List.mem_cons_self n rest)
    have ih' := ih (fun m hm => h m (List.mem_cons_of_mem n hm))
    by_cases he : strEndsWith n "_Indicator" = true
    · have hf : rest.find? (fun p => containsKey lm p) = none :=
        List.find?_eq_none.mpr (fun x hx => by
          rw [h x (List.mem_cons_of_mem n hx)]; simp)
      simp [findSelection, hn, he, hf]
    · simp [findSelection, hn, he, ih']

theorem findSelection_device (lm : List (String × LoadedModel)) (n : String)
    (rest : List String) (hk : containsKey lm n = true) :
    findSelection lm (n :: rest)
      = some ⟨n, n, ObjType.device⟩ := by
  simp [findSelection, hk]

theorem findSelection_indicator (lm : List (String × LoadedModel)) (n : String)
    (rest : List String) (hk : containsKey lm n = false)
    (he : strEndsWith n "_Indicator" = true) :
    findSelection lm (n :: rest)
      = (match rest.find? (fun p => containsKey lm p) with
         | some mid => some ⟨mid, n, ObjType.port⟩
         | none => none) := by
  simp [findSelection, hk, he]

theorem findSelection_some_spec (lm : List (String × LoadedModel))
    (chain : List String) :
    ∀ ev, findSelection lm chain = some ev →
      (ev.objectType = ObjType.device →
        ev.objectName = ev.modelId ∧ containsKey lm ev.modelId = true) ∧
      (ev.objectType = ObjType.port →
        strEndsWith ev.objectName "_Indicator" = true ∧
        containsKey lm ev.modelId = true) := by
  induction chain with
  | nil => intro ev h; cases h
  | cons n rest ih =>
    intro ev h
    unfold findSelection at h
    by_cases hk : containsKey lm n = true
    · rw [if_pos hk] at h
      injection h with h
      subst h
      refine ⟨fun _ => ⟨rfl, hk⟩, fun hpt => ?_⟩
      cases hpt
    · rw [if_neg hk] at h
      by_cases he : strEndsWith n "_Indicator" = true
      · rw [if_pos he] at h
        cases hf : rest.find? (fun p => containsKey lm p) with
        | none => rw [hf] at h; cases h
        | some mid =>
          rw [hf] at h
          injection h with h
          subst h
          refine ⟨fun hdev => ?_, fun _ => ⟨he, List.find?_some hf⟩⟩
          cases hdev
      · rw [if_neg he] at h
        exact ih ev h

/-- C2: a canvas click whose ray hits at least one object emits at most
one `onObjectSelected` event, determined by the ancestor walk of the
first hit: a `'device'` event named by the loaded model root when the
first relevant ancestor is one, a `'port'` event named by the indicator
when the first relevant ancestor ends in `'_Indicator'` and a loaded
model root lies above it, no event when no loaded model root is on the
chain; and every emitted event is stored unchanged as the topology
store's selected object. -/
theorem onCanvasClick_selection_spec
    (s : SceneState) (st : StoreState) (pre : List String) (n : String)
    (post : List String) (rest : List (List String))
    (hpre : ∀ m ∈ pre, containsKey s.loadedModels m = false ∧
        strEndsWith m "_Indicator" = false) :
    (containsKey s.loadedModels n = true →
       onCanvasClick s ((pre ++ n :: post) :: rest)
         = some ⟨n, n, ObjType.device⟩) ∧
    (containsKey s.loadedModels n = false →
      strEndsWith n "_Indicator" = true →
      (∀ mid, post.find? (fun p => containsKey s.loadedModels p) = some mid →
         onCanvasClick s ((pre ++ n :: post) :: rest)
           = some ⟨mid, n, ObjType.port⟩) ∧
      (post.find? (fun p => containsKey s.loadedModels p) = none →
         onCanvasClick s ((pre ++ n :: post) :: rest) = none)) ∧
    (∀ chain₂ rest₂, (∀ m ∈ chain₂, containsKey s.loadedModels m = false) →
       onCanvasClick s (chain₂ :: rest₂) = none) ∧
    (∀ ev, onCanvasClick s ((pre ++ n :: post) :: rest) = some ev →
       ((ev.objectType = ObjType.device →
          ev.objectName = ev.modelId ∧
          containsKey s.loadedModels ev.modelId = true) ∧
        (ev.objectType = ObjType.port →
          strEndsWith ev.objectName "_Indicator" = true ∧
          containsKey s.loadedModels ev.modelId = true)) ∧
       viewerForwardSelection st ev
         = { st with selectedObject := some ev }) := by
  refine ⟨?_, ?_, ?_, ?_⟩
  · intro hk
    show findSelection s.loadedModels (pre ++ n :: post) = _
    rw [findSelection_skip s.loadedModels pre (n :: post) hpre]
    exact findSelection_device s.loadedModels n post hk
  · intro hk he
    constructor
    · intro mid hf
      show findSelection s.loadedModels (pre ++ n :: post) = _
      rw [findSelection_skip s.loadedModels pre (n :: post) hpre]
      rw [findSelection_indicator s.loadedModels n post hk he, hf]
    · intro hf
      show findSelection s.loadedModels (pre ++ n :: post) = _
      rw [findSelection_skip s.loadedModels pre (n :: post) hpre]
      rw [findSelection_indicator s.loadedModels n post hk he, hf]
  · intro chain₂ rest₂ h₂
    exact findSelection_no_model s.loadedModels chain₂ h₂
  · intro ev hev
    exact ⟨findSelection_some_spec s.loadedModels (pre ++ n :: post) ev hev, rfl⟩

/-- Concrete run of `onCanvasClick_selection_spec`: a click on an
indicator mesh whose parent chain reaches the loaded model `"m1"`, and a
click on a chain with no loaded model root. -/
theorem onCanvasClick_selection_witness :
    (∀ m ∈ ["Cube_007"], containsKey sampleScene.loadedModels m = false ∧
       strEndsWith m "_Indicator" = false) ∧
    containsKey sampleScene.loadedModels "SwitchA_Port01_Indicator" = false ∧
    strEndsWith "SwitchA_Port01_Indicator" "_Indicator" = true ∧
    ["grp", "m1"].find? (fun p => containsKey sampleScene.loadedModels p)
      = some "m1" ∧
    onCanvasClick sampleScene
        ((["Cube_007"] ++ "SwitchA_Port01_Indicator" :: ["grp", "m1"]) :: [])
      = some ⟨"m1", "SwitchA_Port01_Indicator", ObjType.port⟩ ∧
    onCanvasClick sampleScene (["stray", "orphan"] :: []) = none ∧
    viewerForwardSelection sampleEmptyStore
        ⟨"m1", "SwitchA_Port01_Indicator", ObjType.port⟩
      = { sampleEmptyStore with selectedObject := some ⟨"m1", "SwitchA_Port01_Indicator", ObjType.port⟩ } :=
  ⟨by decide, rfl, by decide, rfl,
    ((onCanvasClick_selection_spec sampleScene sampleEmptyStore ["Cube_007"]
        "SwitchA_Port01_Indicator" ["grp", "m1"] [] (by decide)).2.1 rfl
        (by decide)).1 "m1" rfl,
    (onCanvasClick_selection_spec sampleScene sampleEmptyStore ["Cube_007"]
        "SwitchA_Port01_Indicator" ["grp", "m1"] [] (by decide)).2.2.1
      ["stray", "orphan"] [] (by decide),
    rfl⟩

/-! ### Facts about `connectCable` -/

theorem updateCableVisualsForPort_cables (s : SceneState) (a b : String) :
    (updateCableVisualsForPort s a b).cables
      = s.cables.map (recolorCable s.loadedModels a b) := rfl

theorem add_half_sub_eq_midpoint (a b : Vec3) :
    Vec3.add a ((Vec3.sub b a).smul (1/2)) = midpoint3 a b := by
  cases a
  cases b
  simp only [Vec3.add, Vec3.sub, Vec3.smul, midpoint3, Vec3.mk.injEq]
  refine ⟨by ring, by ring, by ring⟩

def sampleSrcEp : Endpoint := ⟨"m1", "SwitchA_Port01_Attach"⟩

def sampleTgtEp : Endpoint := ⟨"m2", "RouterB_Port03_Attach"⟩

/-- C3 counterexample: both models are loaded and both attach points
exist, yet the call adds no cable and leaves the state untouched, because
the cable asset's load promise rejected (`loadOk = false`).  The claim as
stated, which promises a cable for every such call, is therefore false. -/
theorem connectCable_load_failure_cex :
    lookupA sampleScene.loadedModels "m1" = some sampleModelA ∧
    lookupA sampleScene.loadedModels "m2" = some sampleModelB ∧
    lookupA sampleModelA.portAttachPoints "SwitchA_Port01_Attach"
      = some ⟨0, 0, 0⟩ ∧
    lookupA sampleModelB.portAttachPoints "RouterB_Port03_Attach"
      = some ⟨0, 3, 0⟩ ∧
    connectCable sampleScene "c1" sampleSrcEp sampleTgtEp false
      = sampleScene ∧
    lookupA sampleScene.cables "c1" = none :=
  ⟨rfl, rfl, rfl, rfl, rfl, rfl⟩

/-- C3 (amended): when both referenced models are loaded, both named
attach points exist, and the cable asset loads successfully, exactly one
cylinder cable mesh is added to the scene, its height equals the distance
between the attach points' world positions (stated on the squares of the
two nonnegative quantities), its center is the midpoint of those
positions, and the cable is recorded under `cableId`; when a model or an
attach point is missing, nothing is added and the state is unchanged. -/
theorem connectCable_adds_cylinder
    (s : SceneState) (cid : String) (source target : Endpoint)
    (srcModel tgtModel : LoadedModel) (sp tp : Vec3)
    (hs : lookupA s.loadedModels source.modelId = some srcModel)
    (ht : lookupA s.loadedModels target.modelId = some tgtModel)
    (hsp : lookupA srcModel.portAttachPoints source.portAttachName = some sp)
    (htp : lookupA tgtModel.portAttachPoints target.portAttachName = some tp) :
    ((connectCable s cid source target true).scene = s.scene ++ [cid]) ∧
    (∃ c : CableInfo,
       lookupA (connectCable s cid source target true).cables cid = some c ∧
       c.id = cid ∧ c.object.name = cid ∧
       c.object.heightSq = distSq sp tp ∧
       c.object.position = midpoint3 sp tp ∧
       c.source = source ∧ c.target = target) ∧
    (∀ k, k ≠ cid →
       (lookupA (connectCable s cid source target true).cables k).isSome
         = (lookupA s.cables k).isSome) ∧
    (∀ (s₂ : SceneState) (cid₂ : String) (src₂ tgt₂ : Endpoint) (ok₂ : Bool),
       (match lookupA s₂.loadedModels src₂.modelId,
              lookupA s₂.loadedModels tgt₂.modelId with
        | some m₂, some m₃ =>
            lookupA m₂.portAttachPoints src₂.portAttachName = none ∨
            lookupA m₃.portAttachPoints tgt₂.portAttachName = none
        | _, _ => True) →
       connectCable s₂ cid₂ src₂ tgt₂ ok₂ = s₂) := by
  have hred : connectCable s cid source target true
      = updateCableVisualsForPort { scene := s.scene ++ [cid], loadedModels := s.loadedModels, cables := insertA s.cables cid { id := cid, object := { name := cid, position := Vec3.add sp ((Vec3.sub tp sp).smul (1/2)), heightSq := (Vec3.sub tp sp).normSq, material := { color := .hex 0x555555, emissive := .hex 0x000000 } }, source := source, target := target } } source.modelId (strReplaceFirst source.portAttachName "_Attach" "_Indicator") := by
    unfold connectCable
    simp only [hs, ht, hsp, htp, if_true]
  refine ⟨?_, ?_, ?_, ?_⟩
  · rw [hred, updateCableVisualsForPort_scene]
  · rw [hred, updateCableVisualsForPort_cables]
    rw [lookupA_map_of_fst _ (fun p => (recolorCable_shape _ _ _ p).1) _ cid]
    rw [lookupA_insertA_self]
    refine ⟨_, rfl, ?_, ?_, ?_, ?_, ?_, ?_⟩
    · exact (recolorCable_shape _ _ _ _).2.1
    · exact (recolorCable_shape _ _ _ _).2.2.2.2.1
    · exact (recolorCable_shape _ _ _ _).2.2.2.2.2.2
    · exact ((recolorCable_shape _ _ _ _).2.2.2.2.2.1).trans
        (add_half_sub_eq_midpoint sp tp)
    · exact (recolorCable_shape _ _ _ _).2.2.1
    · exact (recolorCable_shape _ _ _ _).2.2.2.1
  · intro k hk
    rw [hred, updateCableVisualsForPort_cables]
    rw [lookupA_map_of_fst _ (fun p => (recolorCable_shape _ _ _ p).1) _ k]
    rw [lookupA_insertA_ne _ _ _ _ hk]
    cases lookupA s.cables k <;> rfl
  · intro s₂ cid₂ src₂ tgt₂ ok₂ hmiss
    unfold connectCable
    cases h2 : lookupA s₂.loadedModels src₂.modelId with
    | none => rfl
    | some m₂ =>
      cases h3 : lookupA s₂.loadedModels tgt₂.modelId with
      | none => rfl
      | some m₃ =>
        simp only [h2, h3] at hmiss
        dsimp only
        cases h4 : lookupA m₂.portAttachPoints src₂.portAttachName with
        | none => rfl
        | some sp₂ =>
          cases h5 : lookupA m₃.portAttachPoints tgt₂.portAttachName with
          | none => rfl
          | some tp₂ =>
            rcases hmiss with h | h
            · rw [h4] at h; cases h
            · rw [h5] at h; cases h

/-- Concrete run of `connectCable_adds_cylinder`: cable `"c0"` between
the sample attach points `(0,0,0)` and `(0,3,0)`. -/
theorem connectCable_adds_cylinder_witness :
    lookupA sampleScene.loadedModels "m1" = some sampleModelA ∧
    lookupA sampleScene.loadedModels "m2" = some sampleModelB ∧
    lookupA sampleModelA.portAttachPoints "SwitchA_Port01_Attach"
      = some ⟨0, 0, 0⟩ ∧
    lookupA sampleModelB.portAttachPoints "RouterB_Port03_Attach"
      = some ⟨0, 3, 0⟩ ∧
    ((connectCable sampleScene "c0" sampleSrcEp sampleTgtEp true).scene
      = sampleScene.scene ++ ["c0"]) ∧
    (∃ c : CableInfo,
       lookupA (connectCable sampleScene "c0" sampleSrcEp sampleTgtEp
           true).cables "c0" = some c ∧
       c.id = "c0" ∧ c.object.name = "c0" ∧
       c.object.heightSq = distSq ⟨0, 0, 0⟩ ⟨0, 3, 0⟩ ∧
       c.object.position = midpoint3 ⟨0, 0, 0⟩ ⟨0, 3, 0⟩ ∧
       c.source = sampleSrcEp ∧ c.target = sampleTgtEp) :=
  ⟨rfl, rfl, rfl, rfl,
    (connectCable_adds_cylinder sampleScene "c0" sampleSrcEp sampleTgtEp
      sampleModelA sampleModelB ⟨0, 0, 0⟩ ⟨0, 3, 0⟩ rfl rfl rfl rfl).1,
    (connectCable_adds_cylinder sampleScene "c0" sampleSrcEp sampleTgtEp
      sampleModelA sampleModelB ⟨0, 0, 0⟩ ⟨0, 3, 0⟩ rfl rfl rfl rfl).2.1⟩

/-! ### The cables/loadedModels invariant (C8) -/

/-- Every stored cable references two loaded models. -/
def CablesModelsInv (s : SceneState) : Prop :=
  ∀ p ∈ s.cables, containsKey s.loadedModels p.2.source.modelId = true ∧
    containsKey s.loadedModels p.2.target.modelId = true

theorem mem_eraseA {α : Type} {m : List (String × α)} {k : String}
    {p : String × α} (h : p ∈ eraseA m k) : p ∈ m ∧ p.1 ≠ k := by
  unfold eraseA at h
  have := List.mem_filter.mp h
  exact ⟨this.1, by simpa using this.2⟩

theorem mem_insertA {α : Type} {m : List (String × α)} {k : String} {v : α}
    {p : String × α} (h : p ∈ insertA m k v) : p ∈ m ∨ p.2 = v := by
  unfold insertA at h
  split at h
  · obtain ⟨q, hq, he⟩ := List.mem_map.mp h
    by_cases hk : (q.1 == k) = true
    · rw [if_pos hk] at he
      right
      rw [← he]
    · rw [if_neg hk] at he
      left
      rw [← he]
      exact hq
  · rcases List.mem_append.mp h with h | h
    · exact Or.inl h
    · right
      rw [List.mem_singleton.mp h]

theorem repositionCable_shape (s : SceneState) (p : String × CableInfo) :
    (repositionCable s p).1 = p.1 ∧
    (repositionCable s p).2.source = p.2.source ∧
    (repositionCable s p).2.target = p.2.target := by
  refine ⟨?_, ?_, ?_⟩
  all_goals unfold repositionCable
  all_goals repeat' (first | (dsimp only) | split)

theorem inv_updateCableVisualsForPort (s : SceneState) (a b : String)
    (hinv : CablesModelsInv s) :
    CablesModelsInv (updateCableVisualsForPort s a b) := by
  intro p hp
  obtain ⟨q, hq, he⟩ := List.mem_map.mp hp
  have h := hinv q hq
  rw [← he, (recolorCable_shape _ _ _ _).2.2.1, (recolorCable_shape _ _ _ _).2.2.2.1]
  exact h

theorem inv_setPortState (s : SceneState) (mid pn stt : String) (b : Bool)
    (hinv : CablesModelsInv s) :
    CablesModelsInv (setPortState s mid pn stt b) := by
  unfold setPortState
  cases hm : lookupA s.loadedModels mid with
  | none => exact hinv
  | some md =>
    dsimp only
    cases hp : lookupA md.portIndicators pn with
    | none => exact hinv
    | some pinfo =>
      dsimp only
      apply inv_updateCableVisualsForPort
      intro p hpmem
      have h := hinv p hpmem
      rw [containsKey_updateA, containsKey_updateA]
      exact h

theorem foldl_preserves {β : Type} (P : SceneState → Prop)
    (f : SceneState → β → SceneState) (hf : ∀ s x, P s → P (f s x)) :
    ∀ (l : List β) (s : SceneState), P s → P (l.foldl f s) := by
  intro l
  induction l with
  | nil => intro s hs; exact hs
  | cons x l ih =>
    intro s hs
    exact ih (f s x) (hf s x hs)

theorem inv_addModelToScene (s : SceneState) (mid : String) (r : Option Gltf)
    (hinv : CablesModelsInv s) :
    CablesModelsInv (addModelToScene s mid r) := by
  unfold addModelToScene
  split
  · exact hinv
  · cases r with
    | none => exact hinv
    | some g =>
      dsimp only
      have h2 : CablesModelsInv (initPortStateCalls
          { s with scene := s.scene ++ [mid] } mid g) := by
        unfold initPortStateCalls
        exact foldl_preserves CablesModelsInv _
          (fun s' c h' => inv_setPortState s' mid c.name "inactive" false h') _ _ hinv
      intro p hp
      have h := h2 p hp
      exact ⟨containsKey_insertA_of _ _ _ _ h.1, containsKey_insertA_of _ _ _ _ h.2⟩

theorem inv_connectCable (s : SceneState) (cid : String) (src tgt : Endpoint)
    (ok : Bool) (hinv : CablesModelsInv s) :
    CablesModelsInv (connectCable s cid src tgt ok) := by
  unfold connectCable
  cases hs : lookupA s.loadedModels src.modelId with
  | none => exact hinv
  | some srcModel =>
    cases ht : lookupA s.loadedModels tgt.modelId with
    | none => exact hinv
    | some tgtModel =>
      dsimp only
      cases hsp : lookupA srcModel.portAttachPoints src.portAttachName with
      | none => exact hinv
      | some sp =>
        cases htp : lookupA tgtModel.portAttachPoints tgt.portAttachName with
        | none => exact hinv
        | some tp =>
          dsimp only
          cases ok with
          | false => exact hinv
          | true =>
            simp only [if_true]
            apply inv_updateCableVisualsForPort
            intro p hp
            rcases mem_insertA hp with h | h
            · exact hinv p h
            · rw [h]
              constructor
              · show containsKey s.loadedModels src.modelId = true
                unfold containsKey
                rw [hs]
                rfl
              · show containsKey s.loadedModels tgt.modelId = true
                unfold containsKey
                rw [ht]
                rfl

theorem inv_disconnectCable (s : SceneState) (cid : String)
    (hinv : CablesModelsInv s) :
    CablesModelsInv (disconnectCable s cid) := by
  unfold disconnectCable
  cases hc : lookupA s.cables cid with
  | none => exact hinv
  | some c =>
    intro p hp
    exact hinv p (mem_eraseA hp).1

theorem updateBlinkingPorts_containsKey (s : SceneState) (now : Nat)
    (x : String) :
    containsKey (updateBlinkingPorts s now).loadedModels x
      = containsKey s.loadedModels x := by
  unfold updateBlinkingPorts
  exact containsKey_map_of_fst (fun q : String × LoadedModel => (q.1, ({ id := q.2.id, portIndicators := List.map (fun r => (r.1, blinkPort now r.2)) q.2.portIndicators, portAttachPoints := q.2.portAttachPoints } : LoadedModel))) (fun p => rfl) s.loadedModels x

theorem inv_updateScene (s : SceneState) (now : Nat)
    (hinv : CablesModelsInv s) :
    CablesModelsInv (updateScene s now) := by
  unfold updateScene
  have h1 : CablesModelsInv (updateBlinkingPorts s now) := by
    intro p hp
    have h := hinv p hp
    rw [updateBlinkingPorts_containsKey, updateBlinkingPorts_containsKey]
    exact h
  intro p hp
  obtain ⟨q, hq, he⟩ := List.mem_map.mp hp
  have h := h1 q hq
  rw [← he, (repositionCable_shape _ _).2.1, (repositionCable_shape _ _).2.2]
  exact h

theorem removeCableStep_loadedModels (mid : String) (s : SceneState)
    (cid : String) :
    (removeCableStep mid s cid).loadedModels = s.loadedModels := by
  unfold removeCableStep disconnectCable
  repeat' (first | (dsimp only) | split)

theorem removeCableStep_cables_subset (mid : String) (s : SceneState)
    (cid : String) :
    ∀ p ∈ (removeCableStep mid s cid).cables, p ∈ s.cables := by
  intro p hp
  unfold removeCableStep at hp
  revert hp
  cases hc : lookupA s.cables cid with
  | none => exact fun hp => hp
  | some c =>
    dsimp only
    split
    · unfold disconnectCable
      rw [hc]
      intro hp
      exact (mem_eraseA hp).1
    · exact fun hp => hp

theorem removeCableStep_nodup (mid : String) (s : SceneState) (cid : String)
    (hnd : (s.cables.map Prod.fst).Nodup) :
    ((removeCableStep mid s cid).cables.map Prod.fst).Nodup := by
  unfold removeCableStep disconnectCable
  cases hc : lookupA s.cables cid with
  | none => exact hnd
  | some c =>
    dsimp only
    split
    · exact List.Nodup.sublist
        (List.Sublist.map Prod.fst (List.filter_sublist _)) hnd
    · exact hnd

theorem removeFold_clears (mid : String) :
    ∀ (ks : List String) (s : SceneState),
      (∀ p ∈ s.cables,
        (p.2.source.modelId = mid ∨ p.2.target.modelId = mid) → p.1 ∈ ks) →
      ((s.cables.map Prod.fst).Nodup) →
      (∀ p ∈ (ks.foldl (removeCableStep mid) s).cables, p ∈ s.cables) ∧
      (∀ p ∈ (ks.foldl (removeCableStep mid) s).cables,
         ¬(p.2.source.modelId = mid ∨ p.2.target.modelId = mid)) ∧
      (ks.foldl (removeCableStep mid) s).loadedModels = s.loadedModels := by
  intro ks
  induction ks with
  | nil =>
    intro s hcov hnd
    refine ⟨fun p hp => hp, ?_, rfl⟩
    intro p hp ht
    exact absurd (hcov p hp ht) (List.not_mem_nil p.1)
  | cons k ks ih =>
    intro s hcov hnd
    have hsub : ∀ p ∈ (removeCableStep mid s k).cables, p ∈ s.cables :=
      removeCableStep_cables_subset mid s k
    have hnd' := removeCableStep_nodup mid s k hnd
    have hcov' : ∀ p ∈ (removeCableStep mid s k).cables,
        (p.2.source.modelId = mid ∨ p.2.target.modelId = mid) → p.1 ∈ ks := by
      intro p hp ht
      have hmem := hsub p hp
      have hk2 := hcov p hmem ht
      rcases List.mem_cons.mp hk2 with hk | hk
      · exfalso
        revert hp
        unfold removeCableStep
        cases hc : lookupA s.cables k with
        | none =>
          intro hp
          have h6 := lookupA_isSome_of_mem hmem
          rw [hk, hc] at h6
          simp at h6
        | some c =>
          have hcp : c = p.2 := by
            have h5 := lookupA_of_mem_nodup hnd hmem
            rw [hk] at h5
            rw [h5] at hc
            exact (Option.some.inj hc).symm
          dsimp only
          by_cases hcond :
              (c.source.modelId == mid || c.target.modelId == mid) = true
          · rw [if_pos hcond]
            unfold disconnectCable
            rw [hc]
            intro hp
            exact (mem_eraseA hp).2 hk
          · rw [if_neg hcond]
            intro _
            apply hcond
            rw [hcp]
            rcases ht with h | h
            · rw [h]
              simp
            · rw [h]
              simp
      · exact hk
    obtain ⟨ha, hb, hc⟩ := ih (removeCableStep mid s k) hcov' hnd'
    refine ⟨fun p hp => hsub p (ha p hp), hb, ?_⟩
    show (List.foldl (removeCableStep mid) (removeCableStep mid s k)
        ks).loadedModels = s.loadedModels
    rw [hc]
    exact removeCableStep_loadedModels mid s k

theorem inv_removeModelFromScene (s : SceneState) (mid : String)
    (hinv : CablesModelsInv s) (hnd : (s.cables.map Prod.fst).Nodup) :
    CablesModelsInv (removeModelFromScene s mid) := by
  unfold removeModelFromScene
  cases hm : lookupA s.loadedModels mid with
  | none => exact hinv
  | some md =>
    dsimp only
    obtain ⟨ha, hb, hc⟩ := removeFold_clears mid (s.cables.map Prod.fst) s
      (fun p hp _ => List.mem_map.mpr ⟨p, hp, rfl⟩) hnd
    intro p hp
    have hmem := ha p hp
    have hnt := hb p hp
    have h1 := hinv p hmem
    have hnt' := not_or.mp hnt
    constructor
    · rw [hc, containsKey_eraseA_ne _ _ _ hnt'.1]
      exact h1.1
    · rw [hc, containsKey_eraseA_ne _ _ _ hnt'.2]
      exact h1.2

/-- C8: every operation of `ThreeSceneService` preserves the invariant
that each stored cable's `source.modelId` and `target.modelId` are keys
of `loadedModels`: `connectCable` adds a cable only after both lookups
succeed, `removeModelFromScene` disconnects every cable touching the
removed model before deleting its entry, `disconnectCable` only shrinks
the map, and `dispose` clears both maps together. -/
theorem threeSceneService_cable_invariant
    (s : SceneState) (hinv : CablesModelsInv s)
    (hnd : (s.cables.map Prod.fst).Nodup)
    (mid cid pn stt : String) (b ok : Bool) (src tgt : Endpoint)
    (r : Option Gltf) (now : Nat) :
    CablesModelsInv (addModelToScene s mid r) ∧
    CablesModelsInv (setPortState s mid pn stt b) ∧
    CablesModelsInv (updateScene s now) ∧
    CablesModelsInv (connectCable s cid src tgt ok) ∧
    CablesModelsInv (disconnectCable s cid) ∧
    CablesModelsInv (removeModelFromScene s mid) ∧
    CablesModelsInv (dispose s) :=
  ⟨inv_addModelToScene s mid r hinv,
   inv_setPortState s mid pn stt b hinv,
   inv_updateScene s now hinv,
   inv_connectCable s cid src tgt ok hinv,
   inv_disconnectCable s cid hinv,
   inv_removeModelFromScene s mid hinv hnd,
   fun p hp => by cases hp⟩

/-- A sample state with one cable between the two sample models. -/
def sampleSceneC8 : SceneState :=
  { scene := ["m1", "m2", "c1"]
    loadedModels := [("m1", sampleModelA), ("m2", sampleModelB)]
    cables := [("c1",
      { id := "c1"
        object := { name := "c1", position := ⟨0, 0, 0⟩, heightSq := 9
                    material := sampleMaterial }
        source := sampleSrcEp
        target := sampleTgtEp })] }

/-- Concrete run of `threeSceneService_cable_invariant` on
`sampleSceneC8`. -/
theorem threeSceneService_cable_invariant_witness :
    CablesModelsInv sampleSceneC8 ∧
    (sampleSceneC8.cables.map Prod.fst).Nodup ∧
    (CablesModelsInv (addModelToScene sampleSceneC8 "m1" (some sampleGltf)) ∧
     CablesModelsInv (setPortState sampleSceneC8 "m1"
       "SwitchA_Port01_Indicator" "active" true) ∧
     CablesModelsInv (updateScene sampleSceneC8 601) ∧
     CablesModelsInv (connectCable sampleSceneC8 "c1" sampleSrcEp
       sampleTgtEp true) ∧
     CablesModelsInv (disconnectCable sampleSceneC8 "c1") ∧
     CablesModelsInv (removeModelFromScene sampleSceneC8 "m1") ∧
     CablesModelsInv (dispose sampleSceneC8)) :=
  ⟨by unfold CablesModelsInv; decide, by decide,
    threeSceneService_cable_invariant sampleSceneC8
      (by unfold CablesModelsInv; decide) (by decide)
      "m1" "c1" "SwitchA_Port01_Indicator" "active" true true
      sampleSrcEp sampleTgtEp (some sampleGltf) 601⟩

end WebView3D
